import Mathlib

/-!
Shallow embedding of the two FastAPI services of this repository:
`app.py` (insurance-premium predictor input model with derived features) and
`main.py` (patient-registry CRUD over a JSON file store).

Modelling conventions:
* Python floats are modelled as rationals (`ℚ`); Python ints as `Int`.
* Python's built-in `round(x, 2)` (round-half-to-even at two decimals) is
  modelled by `pyRound2`.
* The JSON store (a Python dict keyed by patient id, insertion-ordered) is
  modelled as an association list `Store := List (String × PatientData)`;
  dict assignment replaces in place for an existing key and appends for a
  new key, deletion removes the entry, exactly as Python dicts behave.
* Each HTTP handler becomes a pure function taking the loaded store and
  returning the store that gets persisted together with the response
  (`Except HErr …`); raising `HTTPException` before `save_data` is modelled
  by returning the input store unchanged alongside the error.
* Python's `sorted` (a stable sort; with `reverse=True` it compares keys in
  reverse while still keeping tied elements in their original order) is
  modelled by `List.mergeSort`, which has the same specification.
-/

/-- Round a rational to the nearest integer, ties to even: the semantics of
Python's built-in `round` at `ndigits = 0` (modulo binary-float
representation, which the rational model abstracts away). -/
def roundHalfEven (q : ℚ) : ℤ :=
  if q - (⌊q⌋ : ℚ) < 1 / 2 then ⌊q⌋
  else if (1 / 2 : ℚ) < q - (⌊q⌋ : ℚ) then ⌊q⌋ + 1
  else if ⌊q⌋ % 2 = 0 then ⌊q⌋ else ⌊q⌋ + 1

/-- Python's `round(x, 2)`: round half-to-even at two decimal places. -/
def pyRound2 (q : ℚ) : ℚ := (roundHalfEven (q * 100) : ℚ) / 100

/-! ### Predictor service (`app.py`) -/

/-- `TIER_1_CITIES` from `app.py`. -/
def TIER_1_CITIES : List String := ["Kathmandu", "Pokhara"]

/-- `TIER_2_CITIES` from `app.py`. -/
def TIER_2_CITIES : List String := ["Butwal", "Lalitpur", "Biratnagar"]

/-- The `UserInput` pydantic model of `app.py` (validated fields only;
the schema constraints `0 < age < 120`, `0 < weight`, `0 < height`,
`0 < income` and the fixed occupation list are checked by the framework
before a handler runs and are carried as hypotheses where needed). -/
structure UserInput where
  age : Int
  weight : ℚ
  height : ℚ
  income : ℚ
  smoker : Bool
  city : String
  occupation : String
deriving DecidableEq

/-- `UserInput.bmi` from `app.py`: `round(weight / height ** 2, 2)`. -/
def UserInput.bmi (u : UserInput) : ℚ := pyRound2 (u.weight / u.height ^ 2)

/-- The body of `UserInput.lifestyle_risk` from `app.py`, as a function of
the two fields it reads (`self.smoker` and `self.bmi`). -/
def lifestyleRisk (smoker : Bool) (bmi : ℚ) : String :=
  if smoker = true ∧ bmi > 30 then "High"
  else if smoker = true ∨ bmi > 27 then "Medium"
  else "Low"

/-- `UserInput.lifestyle_risk` from `app.py`. -/
def UserInput.lifestyle_risk (u : UserInput) : String :=
  lifestyleRisk u.smoker u.bmi

/-- The body of `UserInput.age_group` from `app.py`. -/
def ageGroup (age : Int) : String :=
  if age < 25 then "young"
  else if age < 45 then "adult"
  else if age < 60 then "middle_aged"
  else "senior"

/-- `UserInput.age_group` from `app.py`. -/
def UserInput.age_group (u : UserInput) : String := ageGroup u.age

/-- The body of `UserInput.city_tier` from `app.py`: membership is plain
`in` on the Python lists, i.e. case-sensitive exact string equality. -/
def cityTier (city : String) : Int :=
  if city ∈ TIER_1_CITIES then 1
  else if city ∈ TIER_2_CITIES then 2
  else 3

/-- `UserInput.city_tier` from `app.py`. -/
def UserInput.city_tier (u : UserInput) : Int := cityTier u.city

/-! ### Patient registry service (`main.py`): data model -/

/-- The `Literal["Male", "Female", "Other"]` gender field of `Patient`. -/
inductive Gender where
  | Male
  | Female
  | Other
deriving DecidableEq

/-- The stored payload of a patient: the `Patient` model of `main.py`
minus the `id` field (create stores `patient.model_dump(exclude={"id"})`,
so the id is the map key and never duplicated inside the payload). -/
structure PatientData where
  name : String
  age : Int
  gender : Gender
  height : ℚ
  weight : ℚ
deriving DecidableEq

/-- `Patient.bmi` from `main.py`: `round(weight / height ** 2, 2)`. -/
def PatientData.bmi (p : PatientData) : ℚ := pyRound2 (p.weight / p.height ^ 2)

/-- The body of `Patient.verdict` from `main.py`, as a function of the
`self.bmi` value it reads. -/
def bmiVerdict (bmi : ℚ) : String :=
  if bmi < 18.5 then "Underweight"
  else if bmi < 25 then "Normal"
  else if bmi < 30 then "Overweight"
  else "Obese"

/-- `Patient.verdict` from `main.py`. -/
def PatientData.verdict (p : PatientData) : String := bmiVerdict p.bmi

/-- The field constraints of the `Patient` pydantic model of `main.py`:
`name` at most 50 characters, `0 < age < 120`, `0 < height`, `0 < weight`
(the gender constraint is carried by the `Gender` type). Re-running this
validation on a merged record is exactly what `Patient(id=…, **data)`
does inside `edit_patient`. -/
def validPatient (p : PatientData) : Bool :=
  p.name.length ≤ 50 && 0 < p.age && p.age < 120 && 0 < p.height && 0 < p.weight

/-- The pydantic validation message (`str(e)` in `edit_patient`),
modelled as the list of violated field constraints. -/
def validationMsg (p : PatientData) : String :=
  String.intercalate "; " (List.filterMap id
    [if 50 < p.name.length then some "name: string too long" else none,
     if p.age ≤ 0 then some "age: input should be greater than 0" else none,
     if 120 ≤ p.age then some "age: input should be less than 120" else none,
     if p.height ≤ 0 then some "height: input should be greater than 0" else none,
     if p.weight ≤ 0 then some "weight: input should be greater than 0" else none])

/-- The `PatientUpdate` pydantic model of `main.py`: every field optional,
`none` meaning the field was not provided in the request body (what
`model_dump(exclude_unset=True)` drops). -/
structure PatientUpdate where
  name : Option String := none
  age : Option Int := none
  gender : Option Gender := none
  height : Option ℚ := none
  weight : Option ℚ := none
deriving DecidableEq

/-- The update payload that provides no fields at all (request body `{}`). -/
def emptyUpdate : PatientUpdate := {}

/-- `existing_data.update(update_data)` in `edit_patient` with
`update_data = patient_update.model_dump(exclude_unset=True)`: each
provided field overwrites, each unset field is retained. -/
def mergeUpdate (p : PatientData) (u : PatientUpdate) : PatientData :=
  { name := u.name.getD p.name
    age := u.age.getD p.age
    gender := u.gender.getD p.gender
    height := u.height.getD p.height
    weight := u.weight.getD p.weight }

/-- The record a handler returns: `patient_out` dumps the `Patient` model
and attaches the derived `bmi` and `verdict` fields. -/
structure OutRecord where
  id : String
  name : String
  age : Int
  gender : Gender
  height : ℚ
  weight : ℚ
  bmi : ℚ
  verdict : String
deriving DecidableEq

/-- `patient_out` from `main.py`: stored payload plus id, bmi and verdict. -/
def patient_out (patient_id : String) (p : PatientData) : OutRecord :=
  { id := patient_id, name := p.name, age := p.age, gender := p.gender
    height := p.height, weight := p.weight, bmi := p.bmi, verdict := p.verdict }

/-- An `HTTPException`: status code and detail message. -/
structure HErr where
  status : Nat
  detail : String
deriving DecidableEq

instance {ε α : Type} [DecidableEq ε] [DecidableEq α] : DecidableEq (Except ε α)
  | .ok a, .ok b =>
    if h : a = b then .isTrue (by rw [h]) else .isFalse (by simp [h])
  | .ok _, .error _ => .isFalse (by simp)
  | .error _, .ok _ => .isFalse (by simp)
  | .error e, .error e2 =>
    if h : e = e2 then .isTrue (by rw [h]) else .isFalse (by simp [h])

/-- The JSON store: the patients file as an insertion-ordered map from
patient id to stored payload (Python dicts preserve insertion order). -/
abbrev Store := List (String × PatientData)

/-- Dict lookup `data[pid]` / membership `pid in data`. -/
def findEntry : Store → String → Option PatientData
  | [], _ => none
  | (k, v) :: t, i => if k = i then some v else findEntry t i

/-- Dict assignment `data[pid] = payload`: replace in place when the key
exists, append otherwise. -/
def setEntry : Store → String → PatientData → Store
  | [], i, p => [(i, p)]
  | (k, v) :: t, i, p => if k = i then (k, p) :: t else (k, v) :: setEntry t i p

/-- Dict deletion `del data[pid]`. -/
def eraseEntry : Store → String → Store
  | [], _ => []
  | (k, v) :: t, i => if k = i then t else (k, v) :: eraseEntry t i

/-! ### Patient registry service (`main.py`): handlers

Each handler takes the store produced by `load_data()` and returns the
store that is persisted (unchanged whenever the handler raises before
`save_data`) together with its HTTP response. -/

/-- `view_patient` (`GET /patients/{patient_id}`). -/
def view_patient (patient_id : String) (s : Store) : Except HErr OutRecord :=
  match findEntry s patient_id with
  | some payload => .ok (patient_out patient_id payload)
  | none => .error ⟨404, "Patient not found"⟩

/-- `view_all_patients` (`GET /patients`): every record, insertion order. -/
def view_all_patients (s : Store) : List OutRecord :=
  s.map fun pr => patient_out pr.1 pr.2

/-- `create_patient` (`POST /create`): body is a full validated `Patient`
(id plus payload). On success the response carries status 201. -/
def create_patient (id : String) (p : PatientData) (s : Store) :
    Store × Except HErr (Nat × OutRecord) :=
  if (findEntry s id).isSome then
    (s, .error ⟨400, "Patient with this ID already exists"⟩)
  else
    (setEntry s id p, .ok (201, patient_out id p))

/-- `edit_patient` (`PUT /edit/{patient_id}`): merge the provided fields
onto the stored payload, re-validate the merged record as a full
`Patient`, persist only when validation passes. -/
def edit_patient (patient_id : String) (u : PatientUpdate) (s : Store) :
    Store × Except HErr OutRecord :=
  match findEntry s patient_id with
  | none => (s, .error ⟨404, "Patient not found"⟩)
  | some existing =>
    let merged := mergeUpdate existing u
    if validPatient merged then
      (setEntry s patient_id merged, .ok (patient_out patient_id merged))
    else
      (s, .error ⟨400, validationMsg merged⟩)

/-- `delete_patient` (`DELETE /delete/{patient_id}`). -/
def delete_patient (patient_id : String) (s : Store) :
    Store × Except HErr String :=
  match findEntry s patient_id with
  | none => (s, .error ⟨404, "Patient not found"⟩)
  | some _ => (eraseEntry s patient_id, .ok "Patient deleted successfully")

/-- The sort key selected by the `sort_by` query parameter
(`getattr(p, sort_by)` over the three whitelisted attributes; `bmi` is
the computed property, not a stored field). -/
def sortKey (sort_by : String) (pr : String × PatientData) : ℚ :=
  if sort_by = "height" then pr.2.height
  else if sort_by = "weight" then pr.2.weight
  else pr.2.bmi

/-- The comparison used by `sorted(patients, key=…, reverse=(order == "desc"))`:
Python sorts ascending by key and stably, and `reverse=True` reverses the
key comparison while still keeping tied elements in original order. -/
def sortLe (sort_by order : String) (a b : String × PatientData) : Bool :=
  if order = "desc" then decide (sortKey sort_by b ≤ sortKey sort_by a)
  else decide (sortKey sort_by a ≤ sortKey sort_by b)

/-- `sort_patients` (`GET /sort?sort_by=…&order=…`); the `order` query
parameter defaults to `"asc"` when omitted (`Query("asc")`). -/
def sort_patients (sort_by : String) (order : String := "asc") (s : Store) :
    Except HErr (List OutRecord) :=
  if sort_by ∉ ["height", "weight", "bmi"] then
    .error ⟨400, "Invalid sort field. Must be one of [height, weight, bmi]"⟩
  else if order ∉ ["asc", "desc"] then
    .error ⟨400, "Invalid sort order. Must be asc or desc"⟩
  else
    .ok ((s.mergeSort (sortLe sort_by order)).map fun pr => patient_out pr.1 pr.2)

/-- The state of the backing `patients.json` file as `load_data` can find
it: absent (`FileNotFoundError`), present but not decodable as JSON
(`json.JSONDecodeError`), or holding a decoded store. -/
inductive FileState where
  | missing
  | corrupt
  | stored (s : Store)

/-- `load_data` from `main.py`: both read failures are caught and mapped
to the empty store; a decodable file yields its contents. The function is
total on `FileState`, so no registry read fails because of the file. -/
def load_data : FileState → Store
  | .missing => []
  | .corrupt => []
  | .stored s => s

/-! ### Helper lemmas -/

theorem roundHalfEven_intCast (k : ℤ) : roundHalfEven (k : ℚ) = k := by
  simp only [roundHalfEven, Int.floor_intCast, sub_self]
  rw [if_pos (by norm_num)]

theorem pyRound2_idem (q : ℚ) : pyRound2 (pyRound2 q) = pyRound2 q := by
  simp only [pyRound2]
  rw [div_mul_cancel₀ _ (by norm_num : (100 : ℚ) ≠ 0), roundHalfEven_intCast]

/-! ### Claim theorems -/

/-- C3: the lifestyle-risk rule returns High when the user smokes and has
bmi above 30, Medium when (not already High and) the user smokes or has
bmi above 27, and Low otherwise; the four spec examples hold, and a
non-smoker with bmi in (27, 30] gets Medium, not High. -/
theorem lifestyleRisk_spec (s : Bool) (b : ℚ) :
    (s = true ∧ 30 < b → lifestyleRisk s b = "High") ∧
    (¬(s = true ∧ 30 < b) → (s = true ∨ 27 < b) → lifestyleRisk s b = "Medium") ∧
    (¬(s = true ∨ 27 < b) → lifestyleRisk s b = "Low") ∧
    lifestyleRisk true 31 = "High" ∧
    lifestyleRisk true 20 = "Medium" ∧
    lifestyleRisk false 28 = "Medium" ∧
    lifestyleRisk false 20 = "Low" ∧
    (s = false → 27 < b → b ≤ 30 → lifestyleRisk s b = "Medium") := by
  refine ⟨?_, ?_, ?_, by norm_num [lifestyleRisk], by norm_num [lifestyleRisk],
    by norm_num [lifestyleRisk], by norm_num [lifestyleRisk], ?_⟩
  · intro h
    simp only [lifestyleRisk, if_pos h]
  · intro h1 h2
    simp only [lifestyleRisk]
    rw [if_neg h1, if_pos h2]
  · intro h
    simp only [lifestyleRisk]
    rw [if_neg (fun hc => h (Or.inl hc.1)), if_neg h]
  · intro hs h27 _
    simp only [lifestyleRisk]
    rw [if_neg (fun hc => by rw [hs] at hc; exact absurd hc.1 (by decide)),
      if_pos (Or.inr h27)]

/-- C3 witness: the theorem applied at smoker with bmi 31. -/
theorem lifestyleRisk_spec_witness : lifestyleRisk true 31 = "High" :=
  (lifestyleRisk_spec true 31).1 ⟨rfl, by norm_num⟩

/-- C4: the verdict thresholds are 18.5, 25 and 30, with each threshold
value falling into the higher band (18.5 is Normal, 25 is Overweight,
30 is Obese); `Patient.verdict` is this function applied to the bmi. -/
theorem bmiVerdict_spec (b : ℚ) :
    (b < 18.5 → bmiVerdict b = "Underweight") ∧
    (18.5 ≤ b → b < 25 → bmiVerdict b = "Normal") ∧
    (25 ≤ b → b < 30 → bmiVerdict b = "Overweight") ∧
    (30 ≤ b → bmiVerdict b = "Obese") ∧
    bmiVerdict 18.5 = "Normal" ∧
    bmiVerdict 24.99 = "Normal" ∧
    bmiVerdict 25 = "Overweight" ∧
    bmiVerdict 29.99 = "Overweight" ∧
    bmiVerdict 30 = "Obese" ∧
    (∀ p : PatientData, p.verdict = bmiVerdict p.bmi) := by
  refine ⟨?_, ?_, ?_, ?_, by norm_num [bmiVerdict], by norm_num [bmiVerdict],
    by norm_num [bmiVerdict], by norm_num [bmiVerdict], by norm_num [bmiVerdict],
    fun p => rfl⟩
  · intro h
    simp only [bmiVerdict, if_pos h]
  · intro h1 h2
    simp only [bmiVerdict]
    rw [if_neg (not_lt.mpr h1), if_pos h2]
  · intro h1 h2
    simp only [bmiVerdict]
    rw [if_neg (not_lt.mpr (by linarith)), if_neg (not_lt.mpr h1), if_pos h2]
  · intro h
    simp only [bmiVerdict]
    rw [if_neg (not_lt.mpr (by linarith)), if_neg (not_lt.mpr (by linarith)),
      if_neg (not_lt.mpr h)]

/-- C4 witness: the theorem applied at the boundary bmi = 25. -/
theorem bmiVerdict_spec_witness : bmiVerdict 25 = "Overweight" :=
  (bmiVerdict_spec 25).2.2.1 (by norm_num) (by norm_num)

/-- C7: for positive weight and height, the bmi of both services
(`Patient.bmi` in `main.py` and `UserInput.bmi` in `app.py`) is the
quotient of weight by squared height rounded to two decimals, and
re-rounding the result does not change it. -/
theorem bmi_spec (w h : ℚ) (hw : 0 < w) (hh : 0 < h) :
    (∀ p : PatientData, p.weight = w → p.height = h → p.bmi = pyRound2 (w / h ^ 2)) ∧
    (∀ u : UserInput, u.weight = w → u.height = h → u.bmi = pyRound2 (w / h ^ 2)) ∧
    pyRound2 (pyRound2 (w / h ^ 2)) = pyRound2 (w / h ^ 2) := by
  refine ⟨?_, ?_, pyRound2_idem _⟩
  · intro p hpw hph
    simp only [PatientData.bmi, hpw, hph]
  · intro u huw huh
    simp only [UserInput.bmi, huw, huh]

/-- C7 witness: the theorem applied to a patient of height 2 m and
weight 80 kg. -/
theorem bmi_spec_witness :
    (⟨"A", 30, Gender.Male, 2, 80⟩ : PatientData).bmi = pyRound2 (80 / (2 : ℚ) ^ 2) :=
  (bmi_spec 80 2 (by norm_num) (by norm_num)).1 ⟨"A", 30, Gender.Male, 2, 80⟩ rfl rfl

/-- C8: city-tier is exact, case-sensitive membership in the two fixed
lists (tier 1, then tier 2), defaulting to tier 3; case variants and
misspellings of listed cities get tier 3. -/
theorem cityTier_spec (c : String) :
    (c ∈ TIER_1_CITIES → cityTier c = 1) ∧
    (c ∈ TIER_2_CITIES → cityTier c = 2) ∧
    (c ∉ TIER_1_CITIES → c ∉ TIER_2_CITIES → cityTier c = 3) ∧
    cityTier "Kathmandu" = 1 ∧
    cityTier "kathmandu" = 3 ∧
    cityTier "POKHARA" = 3 ∧
    cityTier "Lalitpur" = 2 ∧
    cityTier "Pokharra" = 3 := by
  refine ⟨?_, ?_, ?_, by decide, by decide, by decide, by decide, by decide⟩
  · intro h
    simp [cityTier, h]
  · intro h
    have h1 : c ∉ TIER_1_CITIES := by
      intro h1
      have h2 : c = "Kathmandu" ∨ c = "Pokhara" := by simpa [TIER_1_CITIES] using h1
      rcases h2 with rfl | rfl <;> revert h <;> decide
    simp [cityTier, h1, h]
  · intro h1 h2
    simp [cityTier, h1, h2]

/-- C8 witness: the theorem applied at the lowercased tier-1 city name. -/
theorem cityTier_spec_witness : cityTier "kathmandu" = 3 :=
  (cityTier_spec "kathmandu").2.2.1 (by decide) (by decide)

/-- C6: `load_data` never fails: a missing file and a corrupt file both
yield the empty store, and a decodable file yields its contents (the
function is total on `FileState`). -/
theorem load_data_spec :
    load_data FileState.missing = [] ∧ load_data FileState.corrupt = [] ∧
    ∀ s : Store, load_data (FileState.stored s) = s :=
  ⟨rfl, rfl, fun _ => rfl⟩

/-! ### Store lemmas -/

theorem findEntry_setEntry_self (s : Store) (x : String) (p : PatientData) :
    findEntry (setEntry s x p) x = some p := by
  induction s with
  | nil => simp [setEntry, findEntry]
  | cons kv t ih =>
    obtain ⟨k, v⟩ := kv
    by_cases hk : k = x
    · simp [setEntry, findEntry, hk]
    · simp only [setEntry, if_neg hk, findEntry]
      exact ih

theorem findEntry_setEntry_ne (s : Store) (x y : String) (p : PatientData)
    (h : y ≠ x) : findEntry (setEntry s x p) y = findEntry s y := by
  induction s with
  | nil =>
    simp only [setEntry, findEntry]
    rw [if_neg fun hh => h hh.symm]
  | cons kv t ih =>
    obtain ⟨k, v⟩ := kv
    by_cases hk : k = x
    · simp only [setEntry, if_pos hk, findEntry]
      rw [if_neg fun hh => h (hh.symm.trans hk), if_neg fun hh => h (hh.symm.trans hk)]
    · simp only [setEntry, if_neg hk, findEntry]
      by_cases hky : k = y
      · rw [if_pos hky, if_pos hky]
      · rw [if_neg hky, if_neg hky, ih]

theorem findEntry_eraseEntry_ne (s : Store) (x y : String) (h : y ≠ x) :
    findEntry (eraseEntry s x) y = findEntry s y := by
  induction s with
  | nil => rfl
  | cons kv t ih =>
    obtain ⟨k, v⟩ := kv
    by_cases hk : k = x
    · simp only [eraseEntry, if_pos hk, findEntry]
      rw [if_neg fun hh => h (hh.symm.trans hk)]
    · simp only [eraseEntry, if_neg hk, findEntry]
      by_cases hky : k = y
      · rw [if_pos hky, if_pos hky]
      · rw [if_neg hky, if_neg hky, ih]

theorem setEntry_of_none (s : Store) (x : String) (p : PatientData)
    (h : findEntry s x = none) : setEntry s x p = s ++ [(x, p)] := by
  induction s with
  | nil => rfl
  | cons kv t ih =>
    obtain ⟨k, v⟩ := kv
    by_cases hk : k = x
    · rw [findEntry, if_pos hk] at h
      exact absurd h (by simp)
    · rw [findEntry, if_neg hk] at h
      simp only [setEntry, if_neg hk, List.cons_append, ih h]

theorem setEntry_of_some (s : Store) (x : String) (p : PatientData)
    (h : findEntry s x = some p) : setEntry s x p = s := by
  induction s with
  | nil => exact absurd h (by simp [findEntry])
  | cons kv t ih =>
    obtain ⟨k, v⟩ := kv
    by_cases hk : k = x
    · rw [findEntry, if_pos hk] at h
      obtain rfl : v = p := by simpa using h
      simp [setEntry, hk]
    · rw [findEntry, if_neg hk] at h
      simp only [setEntry, if_neg hk, ih h]

/-! ### Demo constants used by witnesses -/

/-- A concrete valid patient payload (height 2 m, weight 80 kg). -/
def samplePatient : PatientData := ⟨"A", 30, Gender.Male, 2, 80⟩

/-- A one-entry store holding `samplePatient` under id P001. -/
def sampleStore : Store := [("P001", samplePatient)]

/-- The partial update that provides only `age := 31`. -/
def ageUpdate : PatientUpdate := { age := some 31 }

/-! ### Registry claim theorems -/

/-- C2: create fails with a 400 conflict and persists the unchanged store
when the id already exists; otherwise it appends the record keyed by the
id (the payload itself carries no id field) and answers 201 with the
record plus derived fields. -/
theorem create_patient_spec (id : String) (p : PatientData) (s : Store) :
    ((findEntry s id).isSome = true →
      create_patient id p s =
        (s, .error ⟨400, "Patient with this ID already exists"⟩)) ∧
    (findEntry s id = none →
      create_patient id p s = (s ++ [(id, p)], .ok (201, patient_out id p)) ∧
      findEntry (create_patient id p s).1 id = some p) := by
  constructor
  · intro h
    simp only [create_patient, if_pos h]
  · intro h
    have h2 : ¬((findEntry s id).isSome = true) := by simp [h]
    refine ⟨?_, ?_⟩
    · simp only [create_patient, if_neg h2, setEntry_of_none s id p h]
    · simp only [create_patient, if_neg h2]
      exact findEntry_setEntry_self s id p

/-- C2 witness: the theorem applied to a fresh id on the empty store and
to a duplicate id on the resulting store. -/
theorem create_patient_spec_witness :
    create_patient "P001" samplePatient [] =
      ([] ++ [("P001", samplePatient)], .ok (201, patient_out "P001" samplePatient)) ∧
    create_patient "P001" samplePatient sampleStore =
      (sampleStore, .error ⟨400, "Patient with this ID already exists"⟩) :=
  ⟨((create_patient_spec "P001" samplePatient []).2 rfl).1,
   (create_patient_spec "P001" samplePatient sampleStore).1 (by decide)⟩

/-- C1: partial update 404s on an absent id (store untouched); on a
present id exactly the provided fields overwrite (unset fields are
retained), the merged record is re-validated as a full `Patient`, an
invalid merge yields a 400 carrying the validation message with the
store untouched, and a valid merge is persisted under the same id and
returned with bmi and verdict attached. -/
theorem edit_patient_spec (patient_id : String) (u : PatientUpdate) (s : Store) :
    (findEntry s patient_id = none →
      edit_patient patient_id u s = (s, .error ⟨404, "Patient not found"⟩)) ∧
    (∀ p, findEntry s patient_id = some p →
      (mergeUpdate p u).name = u.name.getD p.name ∧
      (mergeUpdate p u).age = u.age.getD p.age ∧
      (mergeUpdate p u).gender = u.gender.getD p.gender ∧
      (mergeUpdate p u).height = u.height.getD p.height ∧
      (mergeUpdate p u).weight = u.weight.getD p.weight ∧
      (patient_out patient_id (mergeUpdate p u)).bmi = (mergeUpdate p u).bmi ∧
      (patient_out patient_id (mergeUpdate p u)).verdict = (mergeUpdate p u).verdict ∧
      (validPatient (mergeUpdate p u) = true →
        edit_patient patient_id u s =
          (setEntry s patient_id (mergeUpdate p u),
           .ok (patient_out patient_id (mergeUpdate p u)))) ∧
      (validPatient (mergeUpdate p u) = false →
        edit_patient patient_id u s =
          (s, .error ⟨400, validationMsg (mergeUpdate p u)⟩))) := by
  constructor
  · intro h
    simp only [edit_patient, h]
  · intro p hp
    refine ⟨rfl, rfl, rfl, rfl, rfl, rfl, rfl, ?_, ?_⟩
    · intro hv
      simp only [edit_patient, hp, if_pos hv]
    · intro hv
      simp only [edit_patient, hp]
      rw [if_neg (by simp [hv])]

/-- C1 witness: the theorem applied to the update `{age := 31}` of the
stored patient P001. -/
theorem edit_patient_spec_witness :
    edit_patient "P001" ageUpdate sampleStore =
      (setEntry sampleStore "P001" (mergeUpdate samplePatient ageUpdate),
       .ok (patient_out "P001" (mergeUpdate samplePatient ageUpdate))) :=
  (((edit_patient_spec "P001" ageUpdate sampleStore).2 samplePatient rfl).2.2.2.2.2.2.2.1)
    (by decide)

/-- C9: none of the three mutating handlers touches the stored payload of
any other id: for `y ≠ x`, the lookup of `y` in the store each handler
persists equals its lookup in the store the handler loaded (this holds on
every call, successful or failed, hence in particular on successful ones). -/
theorem mutation_frame (x y : String) (h : y ≠ x) (p : PatientData)
    (u : PatientUpdate) (s : Store) :
    findEntry (create_patient x p s).1 y = findEntry s y ∧
    findEntry (edit_patient x u s).1 y = findEntry s y ∧
    findEntry (delete_patient x s).1 y = findEntry s y := by
  refine ⟨?_, ?_, ?_⟩
  · simp only [create_patient]
    split
    · rfl
    · exact findEntry_setEntry_ne s x y p h
  · simp only [edit_patient]
    split
    · rfl
    · split
      · exact findEntry_setEntry_ne s x y _ h
      · rfl
  · simp only [delete_patient]
    split
    · rfl
    · exact findEntry_eraseEntry_ne s x y h

/-- C9 witness: the theorem applied at x = P001, y = P002 over the sample
store. -/
theorem mutation_frame_witness :
    findEntry (create_patient "P001" samplePatient sampleStore).1 "P002" =
      findEntry sampleStore "P002" ∧
    findEntry (edit_patient "P001" ageUpdate sampleStore).1 "P002" =
      findEntry sampleStore "P002" ∧
    findEntry (delete_patient "P001" sampleStore).1 "P002" =
      findEntry sampleStore "P002" :=
  mutation_frame "P001" "P002" (by decide) samplePatient ageUpdate sampleStore

/-- C10: a partial update that provides no fields succeeds on any stored
(schema-valid) id and is an identity: the persisted store is the loaded
store, and the returned record is exactly what get-by-id returns. -/
theorem edit_empty_update_spec (patient_id : String) (s : Store) (p : PatientData)
    (hf : findEntry s patient_id = some p) (hv : validPatient p = true) :
    edit_patient patient_id emptyUpdate s = (s, .ok (patient_out patient_id p)) ∧
    view_patient patient_id s = .ok (patient_out patient_id p) := by
  have hm : mergeUpdate p emptyUpdate = p := rfl
  constructor
  · simp only [edit_patient, hf, hm, if_pos hv, setEntry_of_some s patient_id p hf]
  · simp only [view_patient, hf]

/-- C10 witness: the theorem applied to the empty update of the stored
patient P001. -/
theorem edit_empty_update_spec_witness :
    edit_patient "P001" emptyUpdate sampleStore =
      (sampleStore, .ok (patient_out "P001" samplePatient)) ∧
    view_patient "P001" sampleStore = .ok (patient_out "P001" samplePatient) :=
  edit_empty_update_spec "P001" sampleStore samplePatient rfl (by decide)

/-! ### Sort comparison lemmas -/

theorem sortLe_trans (sort_by order : String) (a b c : String × PatientData)
    (hab : sortLe sort_by order a b = true) (hbc : sortLe sort_by order b c = true) :
    sortLe sort_by order a c = true := by
  by_cases ho : order = "desc"
  · simp only [sortLe, if_pos ho, decide_eq_true_eq] at hab hbc ⊢
    exact le_trans hbc hab
  · simp only [sortLe, if_neg ho, decide_eq_true_eq] at hab hbc ⊢
    exact le_trans hab hbc

theorem sortLe_total (sort_by order : String) (a b : String × PatientData) :
    (sortLe sort_by order a b || sortLe sort_by order b a) = true := by
  by_cases ho : order = "desc"
  · simp only [sortLe, if_pos ho, Bool.or_eq_true, decide_eq_true_eq]
    exact le_total _ _
  · simp only [sortLe, if_neg ho, Bool.or_eq_true, decide_eq_true_eq]
    exact le_total _ _

theorem sortLe_of_key_eq (sort_by order : String) (a b : String × PatientData)
    (h : sortKey sort_by a = sortKey sort_by b) : sortLe sort_by order a b = true := by
  by_cases ho : order = "desc"
  · simp only [sortLe, if_pos ho, decide_eq_true_eq]
    exact le_of_eq h.symm
  · simp only [sortLe, if_neg ho, decide_eq_true_eq]
    exact le_of_eq h

/-- C5: sort 400s when `sort_by` is outside {height, weight, bmi} or
`order` is outside {asc, desc}; on valid parameters it returns the whole
store (a permutation), with derived fields attached, arranged so that
consecutive records satisfy the chosen key comparison (ascending or
descending), and stably: any two records with equal keys keep their
original relative order, descending included. The bmi key is the
computed `PatientData.bmi`, since the stored payload has no bmi field. -/
theorem sort_patients_spec (sort_by order : String) (s : Store) :
    (sort_by ∉ ["height", "weight", "bmi"] →
      sort_patients sort_by order s =
        .error ⟨400, "Invalid sort field. Must be one of [height, weight, bmi]"⟩) ∧
    (sort_by ∈ ["height", "weight", "bmi"] → order ∉ ["asc", "desc"] →
      sort_patients sort_by order s =
        .error ⟨400, "Invalid sort order. Must be asc or desc"⟩) ∧
    (sort_by ∈ ["height", "weight", "bmi"] → order ∈ ["asc", "desc"] →
      ∃ l : Store,
        sort_patients sort_by order s = .ok (l.map fun pr => patient_out pr.1 pr.2) ∧
        List.Perm l s ∧
        List.Pairwise (fun a b => sortLe sort_by order a b = true) l ∧
        (∀ a b : String × PatientData, List.Sublist [a, b] s →
          sortKey sort_by a = sortKey sort_by b → List.Sublist [a, b] l)) := by
  refine ⟨?_, ?_, ?_⟩
  · intro h
    simp only [sort_patients, if_pos h]
  · intro h1 h2
    simp only [sort_patients]
    rw [if_neg (not_not_intro h1), if_pos h2]
  · intro h1 h2
    refine ⟨s.mergeSort (sortLe sort_by order), ?_, ?_, ?_, ?_⟩
    · simp only [sort_patients]
      rw [if_neg (not_not_intro h1), if_neg (not_not_intro h2)]
    · exact List.mergeSort_perm s _
    · exact List.sorted_mergeSort (sortLe_trans sort_by order)
        (sortLe_total sort_by order) s
    · intro a b hab hkey
      exact List.pair_sublist_mergeSort (sortLe_trans sort_by order)
        (sortLe_total sort_by order) (sortLe_of_key_eq sort_by order a b hkey) hab

/-- C5 witness: the theorem applied to the invalid sort field "foo". -/
theorem sort_patients_spec_witness :
    sort_patients "foo" "asc" sampleStore =
      .error ⟨400, "Invalid sort field. Must be one of [height, weight, bmi]"⟩ :=
  (sort_patients_spec "foo" "asc" sampleStore).1 (by decide)
